import Mathlib

/-!
Verification development for the demo-app HTTP service (Go).

The definitions below are a shallow embedding of `src/main.go` (the v2.4
revision, which is the authority for the counter, routing and handler
behaviour) and of the traced v2.5 revision's startup path (`initTracer` and
`main`).  Global mutable state (the `requestCount` int64 counter) is passed
explicitly; ambient readings performed by library calls (`time.Now`,
`os.Getenv`, `runtime.ReadMemStats`, `runtime.NumGoroutine`, the `math/rand`
global source) are inputs bundled in an environment record.  Go `int64`
arithmetic wraps; `atomic.AddInt64` is embedded with an explicit wrap at
2^63.
-/

namespace DemoApp

/-! ## Go int64 arithmetic -/

/-- Largest value representable in a Go `int64`. -/
def INT64_MAX : Int := 2 ^ 63 - 1

/-- Smallest value representable in a Go `int64`. -/
def INT64_MIN : Int := -(2 ^ 63)

/-- Two's-complement wrap of an integer into the `int64` range. -/
def wrap64 (x : Int) : Int := (x + 2 ^ 63) % 2 ^ 64 - 2 ^ 63

/-- `atomic.AddInt64(&c, d)`: int64 addition, wrapping on overflow. -/
def addInt64 (c d : Int) : Int := wrap64 (c + d)

/-! ## Requests

`r.URL.Query().Get(key)` returns the first value associated with `key`, or
`""` when the key is absent.  The query is modelled after parsing, as an
association list of key/value pairs. -/

structure URL where
  path : String
  query : List (String × String)

/-- `url.Values.Get`: first value for the key, `""` if none. -/
def URL.queryGet (u : URL) (key : String) : String :=
  match u.query.find? (fun p => p.1 == key) with
  | some p => p.2
  | none => ""

structure Request where
  method : String
  url : URL
  headers : List (String × List String)

/-! ## The math/rand global source

`rand.Intn`, `rand.Int63`, `rand.Int31` draw from the process-wide
pseudo-random source.  The source is modelled by its documented contract: a
stream of raw values, with each draw returning a value in the documented
range and advancing the stream.  -/

structure RandGen where
  stream : Nat → Nat
  pos : Nat

/-- `rand.Intn(n)`: a value in `[0, n)`, advancing the source. -/
def RandGen.intn (g : RandGen) (n : Nat) : Nat × RandGen :=
  (g.stream g.pos % n, { g with pos := g.pos + 1 })

/-- `rand.Int63()`: a non-negative value below `2^63`, advancing the source. -/
def RandGen.int63 (g : RandGen) : Nat × RandGen :=
  (g.stream g.pos % 2 ^ 63, { g with pos := g.pos + 1 })

/-- `rand.Int31()`: a non-negative value below `2^31`, advancing the source. -/
def RandGen.int31 (g : RandGen) : Nat × RandGen :=
  (g.stream g.pos % 2 ^ 31, { g with pos := g.pos + 1 })

/-! ## Ambient process state

Readings the handlers take from the process and host environment.  The
string-valued readings that are produced by library formatting of runtime
statistics (`time.Since(startTime).Round(time.Second).String()`, the
`"%.2f MB"` rendering of `m.Alloc`) are carried as opaque input strings:
no claim depends on their content.  Clock-derived numbers (`Weekday`,
`ISOWeek`, `Unix`) are likewise ambient inputs. -/

structure DateTime where
  year : Nat
  month : Nat
  day : Nat
  hour : Nat
  minute : Nat
  second : Nat

structure Env where
  /-- `time.Now().UTC()`, broken into calendar components. -/
  now : DateTime
  /-- `time.Now()` in the server's local zone, for `/api/time`. -/
  nowLocal : DateTime
  /-- `now.Location().String()`. -/
  tzName : String
  /-- `now.Unix()`. -/
  unixTime : Int
  /-- `now.Weekday()`: 0 = Sunday, ..., 6 = Saturday. -/
  weekday : Nat
  /-- the week component of `now.ISOWeek()`. -/
  isoWeek : Int
  /-- `os.Getenv("APP_ENV")`. -/
  appEnv : String
  /-- `time.Since(startTime).Round(time.Second).String()`. -/
  uptimeStr : String
  /-- `fmt.Sprintf("%.2f MB", float64(m.Alloc)/1024/1024)`. -/
  memUsageStr : String
  /-- `runtime.NumGoroutine()`. -/
  goroutines : Nat
  /-- `runtime.Version()`. -/
  goVersion : String
  /-- `runtime.GOOS`. -/
  goOS : String
  /-- `runtime.GOARCH`. -/
  goArch : String
  /-- the `math/rand` global source. -/
  gen : RandGen

/-! ## Decimal and hexadecimal formatting (`fmt` verbs `%d`, `%x`) -/

/-- Decimal digit characters of `n`, most significant first (`fmt` `%d`). -/
def decDigits (n : Nat) : List Char :=
  if n < 10 then [Nat.digitChar n]
  else decDigits (n / 10) ++ [Nat.digitChar (n % 10)]
decreasing_by exact Nat.div_lt_self (by omega) (by omega)

/-- Lowercase hexadecimal digit characters of `n`, most significant first
(`fmt` `%x`). -/
def hexDigits (n : Nat) : List Char :=
  if n < 16 then [Nat.digitChar n]
  else hexDigits (n / 16) ++ [Nat.digitChar (n % 16)]
decreasing_by exact Nat.div_lt_self (by omega) (by omega)

/-- `fmt.Sprintf("%0<w>d", n)`: decimal, zero-padded on the left to width. -/
def goDec (width n : Nat) : String :=
  String.mk (List.replicate (width - (decDigits n).length) '0' ++ decDigits n)

/-- `fmt.Sprintf("%0<w>x", n)`: lowercase hex, zero-padded on the left to
width. -/
def goHex (width n : Nat) : String :=
  String.mk (List.replicate (width - (hexDigits n).length) '0' ++ hexDigits n)

/-- `t.Format(time.RFC3339)` for a UTC time with in-range components: the
zone renders as `Z`. -/
def rfc3339UTC (t : DateTime) : String :=
  goDec 4 t.year ++ "-" ++ goDec 2 t.month ++ "-" ++ goDec 2 t.day ++ "T" ++
    goDec 2 t.hour ++ ":" ++ goDec 2 t.minute ++ ":" ++ goDec 2 t.second ++ "Z"

/-- `t.Format("2006-01-02 15:04:05")` on the local-time components. -/
def formatLocal (t : DateTime) : String :=
  goDec 4 t.year ++ "-" ++ goDec 2 t.month ++ "-" ++ goDec 2 t.day ++ " " ++
    goDec 2 t.hour ++ ":" ++ goDec 2 t.minute ++ ":" ++ goDec 2 t.second

/-- `time.Weekday.String()` for values 0..6. -/
def weekdayName (w : Nat) : String :=
  match w with
  | 0 => "Sunday"
  | 1 => "Monday"
  | 2 => "Tuesday"
  | 3 => "Wednesday"
  | 4 => "Thursday"
  | 5 => "Friday"
  | 6 => "Saturday"
  | _ => "%!Weekday(" ++ goDec 1 w ++ ")"

/-! ## Response records (the structs of `src/main.go`) -/

/-- Build-time constants of the v2.4 revision. -/
def Version : String := "2.4.0-dev"

def BuildTime : String := "unknown"

def GitCommit : String := "unknown"

structure Response where
  status : String
  message : String
  timestamp : String

structure VersionInfo where
  version : String
  buildTime : String
  gitCommit : String

structure HelloResponse where
  message : String
  timestamp : String

structure StatusResponse where
  status : String
  environment : String
  uptime : String
  timestamp : String

structure FeatureResponse where
  feature : String
  description : String
  version : String
  timestamp : String

structure MetricsResponse where
  requestCount : Int
  memoryUsage : String
  goRoutines : Nat
  uptime : String
  timestamp : String

structure EchoResponse where
  echo : String
  headers : List (String × String)
  method : String
  path : String
  timestamp : String

structure InfoResponse where
  appName : String
  version : String
  description : String
  author : String
  goVersion : String
  os : String
  arch : String
  timestamp : String

structure TimeResponse where
  serverTime : String
  timezone : String
  unixTime : Int
  dayOfWeek : String
  weekOfYear : Int
  isWeekend : Bool
  timestamp : String

structure RandomResponse where
  number : Nat
  uuid : String
  color : String
  quote : String
  luckyNumber : Nat
  dice : List Nat
  timestamp : String

/-! ## What a handler writes -/

inductive Payload where
  | healthP (r : Response)
  | versionP (r : VersionInfo)
  | helloP (r : HelloResponse)
  | statusP (r : StatusResponse)
  | featureP (r : FeatureResponse)
  | metricsP (r : MetricsResponse)
  | echoP (r : EchoResponse)
  | infoP (r : InfoResponse)
  | timeP (r : TimeResponse)
  | randomP (r : RandomResponse)

inductive Body where
  /-- body written by `json.NewEncoder(w).Encode(data)`. -/
  | json (p : Payload)
  /-- body written by `fmt.Fprintf(w, html..., Version)`. -/
  | html (s : String)
  /-- body written by `http.Error` (via `http.NotFound`). -/
  | plain (s : String)

structure Output where
  contentType : String
  status : Nat
  body : Body

/-- `writeJSON`: sets `Content-Type: application/json`, writes the status
code, JSON-encodes the data. -/
def writeJSON (status : Nat) (p : Payload) : Output :=
  { contentType := "application/json", status := status, body := .json p }

/-- `http.NotFound(w, r)`: `http.Error(w, "404 page not found", 404)`. -/
def notFoundOutput : Output :=
  { contentType := "text/plain; charset=utf-8"
    status := 404
    body := .plain "404 page not found\n" }

/-! ## Handlers (v2.4 revision, `src/main.go`)

Each handler is a state transformer on the `requestCount` counter; the
response-record construction is split out so that field-level properties can
be stated directly. -/

/-- The landing page written by `rootHandler` (the Go source's template with
`%s` replaced by the version). -/
def rootHTML (version : String) : String :=
  "<!DOCTYPE html>\n<html>\n<head>\n    <title>Demo App v2.1</title>\n    <style>\n        body \x7b font-family: Arial, sans-serif; max-width: 800px; margin: 50px auto; padding: 20px; background: #f0f8ff; \x7d\n        h1 \x7b color: #2e8b57; \x7d\n        .version-badge \x7b background: #2e8b57; color: white; padding: 5px 10px; border-radius: 15px; font-size: 14px; \x7d\n        .endpoint \x7b background: #fff; padding: 10px; margin: 10px 0; border-radius: 5px; border-left: 4px solid #2e8b57; \x7d\n        code \x7b background: #e0e0e0; padding: 2px 6px; border-radius: 3px; \x7d\n        .new-feature \x7b background: #fffacd; border-left-color: #ffa500; \x7d\n    </style>\n</head>\n<body>\n    <h1>🚀 Demo App <span class=\"version-badge\">v2.4 开发版</span></h1>\n    <p>Version: " ++ version ++ "</p>\n    <p><strong>🆕 v2.4 新功能：</strong> 添加了 Random API 端点，返回随机数据！</p>\n    <h2>Available Endpoints:</h2>\n    <div class=\"endpoint\">\n        <strong>GET</strong> <code>/health</code> - Health check\n    </div>\n    <div class=\"endpoint\">\n        <strong>GET</strong> <code>/version</code> - Version info\n    </div>\n    <div class=\"endpoint\">\n        <strong>GET</strong> <code>/api/hello</code> - Hello World\n    </div>\n    <div class=\"endpoint\">\n        <strong>GET</strong> <code>/api/hello?name=YourName</code> - Personalized greeting\n    </div>\n    <div class=\"endpoint\">\n        <strong>GET</strong> <code>/api/status</code> - Application status with uptime\n    </div>\n    <div class=\"endpoint\">\n        <strong>GET</strong> <code>/api/feature</code> - 功能展示\n    </div>\n    <div class=\"endpoint new-feature\">\n        <strong>🆕 GET</strong> <code>/api/metrics</code> - 应用指标 (v2.1新增)\n    </div>\n    <div class=\"endpoint new-feature\">\n        <strong>🆕 GET/POST</strong> <code>/api/echo</code> - 请求回显 (v2.1新增)\n    </div>\n    <div class=\"endpoint new-feature\">\n        <strong>🆕 GET</strong> <code>/api/info</code> - 应用详细信息 (v2.2新增)\n    </div>\n    <div class=\"endpoint new-feature\">\n        <strong>🆕 GET</strong> <code>/api/time</code> - 服务器时间信息 (v2.3新增)\n    </div>\n    <div class=\"endpoint new-feature\">\n        <strong>🆕 GET</strong> <code>/api/random</code> - 随机数据生成 (v2.4新增)\n    </div>\n</body>\n</html>"

/-- `rootHandler`: non-`"/"` paths get `http.NotFound`; `"/"` increments the
counter and writes the HTML landing page (200 implicit on first write). -/
def rootHandler (c : Int) (r : Request) (_e : Env) : Int × Output :=
  if r.url.path ≠ "/" then (c, notFoundOutput)
  else
    (addInt64 c 1,
     { contentType := "text/html; charset=utf-8"
       status := 200
       body := .html (rootHTML Version) })

def healthResponse (e : Env) : Response :=
  { status := "healthy", message := "", timestamp := rfc3339UTC e.now }

def healthHandler (c : Int) (_r : Request) (e : Env) : Int × Output :=
  (c, writeJSON 200 (.healthP (healthResponse e)))

def versionResponse : VersionInfo :=
  { version := Version, buildTime := BuildTime, gitCommit := GitCommit }

def versionHandler (c : Int) (_r : Request) (_e : Env) : Int × Output :=
  (c, writeJSON 200 (.versionP versionResponse))

def helloResponse (r : Request) (e : Env) : HelloResponse :=
  let name := r.url.queryGet "name"
  let name := if name == "" then "World" else name
  { message := "Hello, " ++ name ++ "! 👋 (v2.0)", timestamp := rfc3339UTC e.now }

def helloHandler (c : Int) (r : Request) (e : Env) : Int × Output :=
  (c, writeJSON 200 (.helloP (helloResponse r e)))

def statusResponse (e : Env) : StatusResponse :=
  let env := if e.appEnv == "" then "development" else e.appEnv
  { status := "running", environment := env, uptime := e.uptimeStr
    timestamp := rfc3339UTC e.now }

def statusHandler (c : Int) (_r : Request) (e : Env) : Int × Output :=
  (c, writeJSON 200 (.statusP (statusResponse e)))

def featureResponse (e : Env) : FeatureResponse :=
  { feature := "新功能展示", description := "这是 v2.1 开发版的功能端点"
    version := Version, timestamp := rfc3339UTC e.now }

def featureHandler (c : Int) (_r : Request) (e : Env) : Int × Output :=
  (addInt64 c 1, writeJSON 200 (.featureP (featureResponse e)))

/-- `metricsHandler`: increments the counter, then reads it back with
`atomic.LoadInt64` for the response. -/
def metricsHandler (c : Int) (_r : Request) (e : Env) : Int × Output :=
  let c' := addInt64 c 1
  (c', writeJSON 200 (.metricsP
    { requestCount := c', memoryUsage := e.memUsageStr
      goRoutines := e.goroutines, uptime := e.uptimeStr
      timestamp := rfc3339UTC e.now }))

def echoResponse (r : Request) (e : Env) : EchoResponse :=
  let headers := r.headers.filterMap (fun p =>
    match p.2 with
    | [] => none
    | v :: _ => some (p.1, v))
  let echo := r.url.queryGet "message"
  let echo := if echo == "" then "Hello from Echo API!" else echo
  { echo := echo, headers := headers, method := r.method, path := r.url.path
    timestamp := rfc3339UTC e.now }

def echoHandler (c : Int) (r : Request) (e : Env) : Int × Output :=
  (addInt64 c 1, writeJSON 200 (.echoP (echoResponse r e)))

def infoResponse (e : Env) : InfoResponse :=
  { appName := "Demo App", version := Version
    description := "A demo application for CI/CD pipeline testing"
    author := "CI/CD Platform Team", goVersion := e.goVersion
    os := e.goOS, arch := e.goArch, timestamp := rfc3339UTC e.now }

def infoHandler (c : Int) (_r : Request) (e : Env) : Int × Output :=
  (addInt64 c 1, writeJSON 200 (.infoP (infoResponse e)))

def timeResponse (e : Env) : TimeResponse :=
  -- isWeekend := dayOfWeek == time.Saturday || dayOfWeek == time.Sunday
  let isWeekend := e.weekday == 6 || e.weekday == 0
  { serverTime := formatLocal e.nowLocal, timezone := e.tzName
    unixTime := e.unixTime, dayOfWeek := weekdayName e.weekday
    weekOfYear := e.isoWeek, isWeekend := isWeekend
    timestamp := rfc3339UTC e.now }

def timeHandler (c : Int) (_r : Request) (e : Env) : Int × Output :=
  (addInt64 c 1, writeJSON 200 (.timeP (timeResponse e)))

def colors : List String :=
  ["#FF6B6B", "#4ECDC4", "#45B7D1", "#96CEB4", "#FFEAA7", "#DDA0DD", "#98D8C8", "#F7DC6F"]

def quotes : List String :=
  ["代码是写给人看的，顺便能在机器上运行。",
   "先让它工作，再让它正确，最后让它快。",
   "简单是可靠的先决条件。",
   "过早优化是万恶之源。",
   "好的代码是它自己最好的文档。"]

/-- The response of `randomHandler`: three dice first, then the composite
literal's fields drawn in source order.  `Int31()&0xffff` keeps the low 16
bits. -/
def randomResponse (e : Env) : RandomResponse :=
  let (d0, g) := e.gen.intn 6
  let (d1, g) := g.intn 6
  let (d2, g) := g.intn 6
  let dice := [d0 + 1, d1 + 1, d2 + 1]
  let (num, g) := g.intn 1000
  let (u1, g) := g.int63
  let (u2, g) := g.int31
  let (u3, g) := g.int31
  let (u4, g) := g.int31
  let (u5, g) := g.int63
  let uuid := goHex 8 u1 ++ "-" ++ goHex 4 (u2 &&& 0xffff) ++ "-" ++
    goHex 4 (u3 &&& 0xffff) ++ "-" ++ goHex 4 (u4 &&& 0xffff) ++ "-" ++ goHex 12 u5
  let (ci, g) := g.intn colors.length
  let (qi, g) := g.intn quotes.length
  let (lucky, _g) := g.intn 100
  { number := num, uuid := uuid, color := colors.getD ci ""
    quote := quotes.getD qi "", luckyNumber := lucky + 1
    dice := dice, timestamp := rfc3339UTC e.now }

def randomHandler (c : Int) (_r : Request) (e : Env) : Int × Output :=
  (addInt64 c 1, writeJSON 200 (.randomP (randomResponse e)))

/-! ## Router -/

inductive Route where
  | health | version | hello | status | feature | metrics | echo | info | time | random | root
deriving DecidableEq

/-- `http.ServeMux` dispatch for the registered patterns: the ten rooted
paths match exactly, the pattern `"/"` catches every other path. -/
def mux (path : String) : Route :=
  if path == "/health" then .health
  else if path == "/version" then .version
  else if path == "/api/hello" then .hello
  else if path == "/api/status" then .status
  else if path == "/api/feature" then .feature
  else if path == "/api/metrics" then .metrics
  else if path == "/api/echo" then .echo
  else if path == "/api/info" then .info
  else if path == "/api/time" then .time
  else if path == "/api/random" then .random
  else .root

/-- One request through the router: dispatch and run the handler. -/
def serve (c : Int) (r : Request) (e : Env) : Int × Output :=
  match mux r.url.path with
  | .health => healthHandler c r e
  | .version => versionHandler c r e
  | .hello => helloHandler c r e
  | .status => statusHandler c r e
  | .feature => featureHandler c r e
  | .metrics => metricsHandler c r e
  | .echo => echoHandler c r e
  | .info => infoHandler c r e
  | .time => timeHandler c r e
  | .random => randomHandler c r e
  | .root => rootHandler c r e

/-- A sequence of requests threaded through the counter. -/
def runSeq (c : Int) : List (Request × Env) → Int
  | [] => c
  | (r, e) :: rest => runSeq (serve c r e).1 rest

/-! ## Traced revision (v2.5): `initTracer` and `main` startup

The external observability-library calls inside `initTracer` (creating the
OTLP exporter, merging the resource) are oracles that may fail; everything
else is translated from the source. -/

namespace Traced

structure TracingLibOutcomes where
  /-- error from `otlptracehttp.New`, if it fails. -/
  exporterErr : Option String
  /-- error from `resource.Merge`, if it fails. -/
  resourceErr : Option String

/-- Abstract token for the tracer provider built on success. -/
inductive TracerProvider where
  | mk

def tracedVersion : String := "2.5.0-dev"

/-- `initTracer`: builds the exporter, then the resource, then the provider;
each library failure is wrapped with the source's message and propagated. -/
def initTracer (lib : TracingLibOutcomes) : Except String TracerProvider :=
  match lib.exporterErr with
  | some e => .error ("failed to create OTLP exporter: " ++ e)
  | none =>
    match lib.resourceErr with
    | some e => .error ("failed to create resource: " ++ e)
    | none => .ok .mk

structure Startup where
  logs : List String
  tracerInstalled : Bool
  port : String
  serving : Bool

/-- The traced revision's `main`, up to the blocking `ListenAndServe` call:
on `initTracer` failure it logs one warning and continues; on success it
installs the tracer and logs a success line.  Either way it picks the port,
registers the handlers, wraps the mux and starts serving. -/
def tracedMain (lib : TracingLibOutcomes) (envPORT envOTLP : String) : Startup :=
  let (initLogs, installed) :=
    match initTracer lib with
    | .error e => (["Warning: Failed to initialize tracer: " ++ e], false)
    | .ok _ => (["OpenTelemetry tracer initialized successfully"], true)
  let port := if envPORT == "" then "8000" else envPORT
  { logs := initLogs ++
      ["Demo App v" ++ tracedVersion ++ " starting on port " ++ port,
       "OpenTelemetry endpoint: " ++ envOTLP]
    tracerInstalled := installed
    port := port
    serving := true }

/-- A log line is a warning when it opens with `Warning:`. -/
def isWarningLog (l : String) : Bool :=
  l.data.take 8 == "Warning:".data

/-- How many warning lines the startup produced. -/
def warningCount (s : Startup) : Nat :=
  (s.logs.filter isWarningLog).length

end Traced

/-! ## Specification-side predicates

Vocabulary for stating the spec's properties about the embedded code:
substring containment, hexadecimal groups, RFC3339 shape, JSON outputs. -/

/-- `strings.Contains`-style containment: `sub` occurs verbatim in `s`. -/
def containsVerbatim (s sub : String) : Prop :=
  ∃ pre post, s = pre ++ sub ++ post

/-- A lowercase hexadecimal digit character. -/
def isHexChar (c : Char) : Bool :=
  c.isDigit || ('a' ≤ c && c ≤ 'f')

/-- A non-empty run of hexadecimal digit characters. -/
def hexGroup (s : String) : Prop :=
  s ≠ "" ∧ s.data.all isHexChar = true

/-- Numeric value of a decimal digit character. -/
def digitVal (c : Char) : Nat := c.toNat - 48

/-- A string is a well-formed RFC3339 UTC timestamp: shape
`YYYY-MM-DDTHH:MM:SSZ` with all components digits and in calendar range. -/
def isValidRFC3339 (s : String) : Bool :=
  match s.data with
  | [y1, y2, y3, y4, hy1, mo1, mo2, hy2, d1, d2, tsep,
     hh1, hh2, co1, mi1, mi2, co2, ss1, ss2, zed] =>
    (hy1 == '-') && (hy2 == '-') && (tsep == 'T') &&
    (co1 == ':') && (co2 == ':') && (zed == 'Z') &&
    ([y1, y2, y3, y4, mo1, mo2, d1, d2, hh1, hh2, mi1, mi2, ss1, ss2].all Char.isDigit) &&
    (let mo := 10 * digitVal mo1 + digitVal mo2
     let dy := 10 * digitVal d1 + digitVal d2
     let hh := 10 * digitVal hh1 + digitVal hh2
     let mi := 10 * digitVal mi1 + digitVal mi2
     let ss := 10 * digitVal ss1 + digitVal ss2
     decide (1 ≤ mo) && decide (mo ≤ 12) && decide (1 ≤ dy) && decide (dy ≤ 31) &&
     decide (hh ≤ 23) && decide (mi ≤ 59) && decide (ss ≤ 59))
  | _ => false

/-- An output as `writeJSON` produces with status 200. -/
def isJSON200 (o : Output) : Prop :=
  o.contentType = "application/json" ∧ o.status = 200 ∧ ∃ p, o.body = .json p

/-- A request that reaches one of the counting code paths: the seven
handlers that execute `atomic.AddInt64(&requestCount, 1)` (the root handler
only when the path is exactly `"/"`). -/
def counted (r : Request) : Prop :=
  mux r.url.path = .feature ∨ mux r.url.path = .metrics ∨ mux r.url.path = .echo ∨
  mux r.url.path = .info ∨ mux r.url.path = .time ∨ mux r.url.path = .random ∨
  (mux r.url.path = .root ∧ r.url.path = "/")

/-! ## Concrete fixtures for witnesses -/

def gen0 : RandGen := { stream := fun _ => 0, pos := 0 }

def dt0 : DateTime :=
  { year := 2026, month := 1, day := 2, hour := 3, minute := 4, second := 5 }

def env0 : Env :=
  { now := dt0, nowLocal := dt0, tzName := "UTC", unixTime := 1767323045
    weekday := 5, isoWeek := 1, appEnv := "", uptimeStr := "1s"
    memUsageStr := "1.00 MB", goroutines := 4, goVersion := "go1.21.0"
    goOS := "linux", goArch := "amd64", gen := gen0 }

def req (m p : String) (q : List (String × String)) : Request :=
  { method := m, url := { path := p, query := q }, headers := [] }

/-! ## Theorems -/

/-- Claim C2: for every request to `/api/hello`, if the `name` query
parameter is absent or empty the message contains `"World"`, and if
`name=X` for a non-empty `X` (non-ASCII included) the message contains `X`
verbatim. -/
theorem hello_message_contains (c : Int) (r : Request) (e : Env)
    (hpath : r.url.path = "/api/hello") :
    ∃ resp : HelloResponse,
      (serve c r e).2 = writeJSON 200 (Payload.helloP resp) ∧
      (r.url.queryGet "name" = "" → containsVerbatim resp.message "World") ∧
      (∀ x, x ≠ "" → r.url.queryGet "name" = x → containsVerbatim resp.message x) := by
  refine ⟨helloResponse r e, ?_, ?_, ?_⟩
  · unfold serve
    rw [hpath]
    rfl
  · intro h
    refine ⟨"Hello, ", "! 👋 (v2.0)", ?_⟩
    simp [helloResponse, h]
  · intro x hx h
    refine ⟨"Hello, ", "! 👋 (v2.0)", ?_⟩
    have hx' : (x == "") = false := beq_eq_false_iff_ne.mpr hx
    simp [helloResponse, h, hx']

/-- Witness for C2: concrete requests without and with a non-ASCII name. -/
theorem hello_message_contains_witness :
    (∃ resp : HelloResponse,
      (serve 0 (req "GET" "/api/hello" []) env0).2 = writeJSON 200 (Payload.helloP resp) ∧
      containsVerbatim resp.message "World") ∧
    (∃ resp : HelloResponse,
      (serve 0 (req "GET" "/api/hello" [("name", "测试")]) env0).2 =
        writeJSON 200 (Payload.helloP resp) ∧
      containsVerbatim resp.message "测试") := by
  constructor
  · obtain ⟨resp, h1, h2, _⟩ := hello_message_contains 0 (req "GET" "/api/hello" []) env0 rfl
    exact ⟨resp, h1, h2 rfl⟩
  · obtain ⟨resp, h1, _, h3⟩ :=
      hello_message_contains 0 (req "GET" "/api/hello" [("name", "测试")]) env0 rfl
    exact ⟨resp, h1, h3 "测试" (by decide) rfl⟩

/-- Claim C3: for every request to `/api/echo` carrying `message=test` the
`echo` field equals `"test"`, and for every request to `/api/echo` the
`method` field equals the request's HTTP method. -/
theorem echo_fields (c : Int) (r : Request) (e : Env)
    (hpath : r.url.path = "/api/echo") :
    ∃ resp : EchoResponse,
      (serve c r e).2 = writeJSON 200 (Payload.echoP resp) ∧
      (r.url.queryGet "message" = "test" → resp.echo = "test") ∧
      resp.method = r.method := by
  refine ⟨echoResponse r e, ?_, ?_, rfl⟩
  · unfold serve
    rw [hpath]
    rfl
  · intro h
    simp [echoResponse, h]

/-- Witness for C3: a concrete POST to `/api/echo?message=test`. -/
theorem echo_fields_witness :
    ∃ resp : EchoResponse,
      (serve 0 (req "POST" "/api/echo" [("message", "test")]) env0).2 =
        writeJSON 200 (Payload.echoP resp) ∧
      resp.echo = "test" ∧ resp.method = "POST" := by
  obtain ⟨resp, h1, h2, h3⟩ :=
    echo_fields 0 (req "POST" "/api/echo" [("message", "test")]) env0 rfl
  exact ⟨resp, h1, h2 rfl, h3⟩

/-- Claim C9: for every request to `/api/echo` whose `message` query
parameter is absent or empty, the `echo` field is the fixed default
`"Hello from Echo API!"`. -/
theorem echo_default_message (c : Int) (r : Request) (e : Env)
    (hpath : r.url.path = "/api/echo") (hmsg : r.url.queryGet "message" = "") :
    ∃ resp : EchoResponse,
      (serve c r e).2 = writeJSON 200 (Payload.echoP resp) ∧
      resp.echo = "Hello from Echo API!" := by
  refine ⟨echoResponse r e, ?_, ?_⟩
  · unfold serve
    rw [hpath]
    rfl
  · simp [echoResponse, hmsg]

/-- Witness for C9: a concrete request to `/api/echo` with no query. -/
theorem echo_default_message_witness :
    ∃ resp : EchoResponse,
      (serve 0 (req "GET" "/api/echo" []) env0).2 = writeJSON 200 (Payload.echoP resp) ∧
      resp.echo = "Hello from Echo API!" :=
  echo_default_message 0 (req "GET" "/api/echo" []) env0 rfl rfl

/-- Claim C10: requests to `/health`, `/version`, `/api/hello` and
`/api/status` leave the request counter unchanged, while the root (landing
page), feature, metrics, echo, info, time and random handlers increment
it. -/
theorem uncounted_endpoints (c : Int) (r : Request) (e : Env) :
    ((r.url.path = "/health" ∨ r.url.path = "/version" ∨
      r.url.path = "/api/hello" ∨ r.url.path = "/api/status") →
      (serve c r e).1 = c) ∧
    ((r.url.path = "/api/feature" ∨ r.url.path = "/api/metrics" ∨
      r.url.path = "/api/echo" ∨ r.url.path = "/api/info" ∨
      r.url.path = "/api/time" ∨ r.url.path = "/api/random" ∨
      r.url.path = "/") →
      (serve c r e).1 = addInt64 c 1) := by
  constructor
  · rintro (h | h | h | h) <;> (unfold serve; rw [h]; rfl)
  · rintro (h | h | h | h | h | h | h)
    case inr.inr.inr.inr.inr.inr =>
      unfold serve rootHandler
      rw [h]
      rfl
    all_goals (unfold serve; rw [h]; rfl)

/-- Witness for C10: an uncounted and a counted concrete request. -/
theorem uncounted_endpoints_witness :
    (serve 7 (req "GET" "/health" []) env0).1 = 7 ∧
    (serve 7 (req "GET" "/api/metrics" []) env0).1 = addInt64 7 1 :=
  ⟨(uncounted_endpoints 7 (req "GET" "/health" []) env0).1 (Or.inl rfl),
   (uncounted_endpoints 7 (req "GET" "/api/metrics" []) env0).2 (Or.inr (Or.inl rfl))⟩

/-! ### Counter lemmas -/

/-- Within int64 range, `atomic.AddInt64(&c, 1)` is plain addition. -/
theorem addInt64_one_eq (c : Int) (h1 : INT64_MIN ≤ c) (h2 : c + 1 ≤ INT64_MAX) :
    addInt64 c 1 = c + 1 := by
  unfold addInt64 wrap64
  simp only [INT64_MIN, INT64_MAX] at h1 h2
  rw [Int.emod_eq_of_lt (by omega) (by omega)]
  omega

/-- Every request leaves the counter unchanged or performs one atomic
increment: the dispatch gives each handler exactly one of the two shapes. -/
theorem serve_counter_cases (c : Int) (r : Request) (e : Env) :
    (serve c r e).1 = c ∨ (serve c r e).1 = addInt64 c 1 := by
  unfold serve
  cases hm : mux r.url.path
  case health => exact Or.inl rfl
  case version => exact Or.inl rfl
  case hello => exact Or.inl rfl
  case status => exact Or.inl rfl
  case feature => exact Or.inr rfl
  case metrics => exact Or.inr rfl
  case echo => exact Or.inr rfl
  case info => exact Or.inr rfl
  case time => exact Or.inr rfl
  case random => exact Or.inr rfl
  case root =>
    unfold rootHandler
    by_cases hp : r.url.path = "/"
    · exact Or.inr (by simp [hp])
    · exact Or.inl (by simp [hp])

/-- Along a request sequence that stays in int64 range, the counter never
drops below its start and gains at most one per request. -/
theorem runSeq_bounds (rs : List (Request × Env)) (c : Int)
    (h1 : INT64_MIN ≤ c) (h2 : c + rs.length ≤ INT64_MAX) :
    c ≤ runSeq c rs ∧ runSeq c rs ≤ c + rs.length := by
  induction rs generalizing c with
  | nil => simp [runSeq]
  | cons p rest ih =>
    obtain ⟨r, e⟩ := p
    have h2' : c + 1 + (rest.length : Int) ≤ INT64_MAX := by
      simp only [List.length_cons] at h2
      push_cast at h2 ⊢
      omega
    have hadd : addInt64 c 1 = c + 1 := addInt64_one_eq c h1 (by omega)
    have hc1 : (serve c r e).1 = c ∨ (serve c r e).1 = c + 1 := by
      rcases serve_counter_cases c r e with h | h
      · exact Or.inl h
      · rw [hadd] at h
        exact Or.inr h
    have hrun : runSeq c ((r, e) :: rest) = runSeq (serve c r e).1 rest := rfl
    have hlo1 : INT64_MIN ≤ (serve c r e).1 := by rcases hc1 with h | h <;> omega
    have hhi1 : (serve c r e).1 + (rest.length : Int) ≤ INT64_MAX := by
      rcases hc1 with h | h <;> omega
    obtain ⟨ih1, ih2⟩ := ih (serve c r e).1 hlo1 hhi1
    rw [hrun]
    simp only [List.length_cons]
    push_cast
    rcases hc1 with h | h <;> omega

/-- Claim C1 (amended): provided the counter has not reached the maximum
int64 value, every handler leaves the counter unchanged or increments it by
exactly one, and across any request sequence that keeps the counter below
the maximum its value never decreases.  (At `INT64_MAX` the atomic add
wraps to `INT64_MIN`, see the counterexample.) -/
theorem requestCount_monotone (c : Int) (hlo : INT64_MIN ≤ c) :
    (∀ (r : Request) (e : Env), c + 1 ≤ INT64_MAX →
      (serve c r e).1 = c ∨ (serve c r e).1 = c + 1) ∧
    (∀ rs : List (Request × Env), c + rs.length ≤ INT64_MAX →
      c ≤ runSeq c rs) := by
  constructor
  · intro r e hhi
    rcases serve_counter_cases c r e with h | h
    · exact Or.inl h
    · rw [addInt64_one_eq c hlo hhi] at h
      exact Or.inr h
  · intro rs hhi
    exact (runSeq_bounds rs c hlo hhi).1

/-- Witness for C1: a concrete counted request and a concrete two-request
sequence starting from counter 5. -/
theorem requestCount_monotone_witness :
    ((serve 5 (req "GET" "/api/echo" []) env0).1 = 5 ∨
     (serve 5 (req "GET" "/api/echo" []) env0).1 = 5 + 1) ∧
    (5 : Int) ≤ runSeq 5 [(req "GET" "/health" [], env0), (req "GET" "/api/echo" [], env0)] := by
  have h := requestCount_monotone 5 (by decide)
  exact ⟨h.1 (req "GET" "/api/echo" []) env0 (by decide),
         h.2 [(req "GET" "/health" [], env0), (req "GET" "/api/echo" [], env0)] (by decide)⟩

/-- Counterexample to C1 as stated: when the counter holds `INT64_MAX`, a
request to `/api/echo` wraps it to `INT64_MIN`, strictly decreasing it. -/
theorem requestCount_wraps_cex :
    (serve INT64_MAX (req "GET" "/api/echo" []) env0).1 < INT64_MAX := by
  decide

/-- A request on a counting code path performs exactly one atomic add. -/
theorem counted_serve (c : Int) (r : Request) (e : Env) (h : counted r) :
    (serve c r e).1 = addInt64 c 1 := by
  rcases h with h | h | h | h | h | h | ⟨h, hp⟩
  · unfold serve; rw [h]; rfl
  · unfold serve; rw [h]; rfl
  · unfold serve; rw [h]; rfl
  · unfold serve; rw [h]; rfl
  · unfold serve; rw [h]; rfl
  · unfold serve; rw [h]; rfl
  · unfold serve rootHandler
    rw [h, hp]
    rfl

/-- Claim C7 (amended): each counted request performs a single atomic
fetch-add, so a concurrent batch of `N` counted requests linearizes to some
sequential order of the `N` increments; in every such order, provided
`c + N` does not exceed `INT64_MAX`, the final counter is exactly `c + N`
(no lost increments).  (At the int64 maximum the add wraps, see the
counterexample.) -/
theorem no_lost_increments (c : Int) (rs : List (Request × Env))
    (hlo : INT64_MIN ≤ c) (hhi : c + rs.length ≤ INT64_MAX)
    (hall : ∀ p ∈ rs, counted p.1) :
    runSeq c rs = c + rs.length := by
  induction rs generalizing c with
  | nil => simp [runSeq]
  | cons p rest ih =>
    obtain ⟨r, e⟩ := p
    have hc : counted r := hall (r, e) (List.mem_cons_self _ _)
    have h2' : c + 1 + (rest.length : Int) ≤ INT64_MAX := by
      simp only [List.length_cons] at hhi
      push_cast at hhi ⊢
      omega
    have hstep : (serve c r e).1 = c + 1 := by
      rw [counted_serve c r e hc, addInt64_one_eq c hlo (by omega)]
    have hrun : runSeq c ((r, e) :: rest) = runSeq (serve c r e).1 rest := rfl
    have ihres := ih (c + 1) (by omega) (by omega)
      (fun p hp => hall p (List.mem_cons_of_mem _ hp))
    rw [hrun, hstep, ihres]
    simp only [List.length_cons]
    push_cast
    omega

/-- Witness for C7: three concurrent counted requests from counter 0 end at
exactly 3. -/
theorem no_lost_increments_witness :
    runSeq 0 [(req "GET" "/api/echo" [], env0),
              (req "GET" "/api/metrics" [], env0),
              (req "GET" "/" [], env0)] =
      0 + ([(req "GET" "/api/echo" [], env0),
            (req "GET" "/api/metrics" [], env0),
            (req "GET" "/" [], env0)].length : Int) := by
  apply no_lost_increments 0 _ (by decide) (by decide)
  intro p hp
  simp only [List.mem_cons, List.not_mem_nil, or_false] at hp
  rcases hp with h | h | h <;> subst h
  · exact Or.inr (Or.inr (Or.inl rfl))
  · exact Or.inr (Or.inl rfl)
  · exact Or.inr (Or.inr (Or.inr (Or.inr (Or.inr (Or.inr ⟨rfl, rfl⟩)))))

/-- Counterexample to C7 as stated: one counted request starting from
`INT64_MAX` does not end at `INT64_MAX + 1` — the atomic add wraps. -/
theorem no_lost_increments_overflow_cex :
    runSeq INT64_MAX [(req "GET" "/api/echo" [], env0)] ≠ INT64_MAX + 1 := by
  decide

/-- Claim C6 (amended): every handler other than the root handler writes a
JSON body with content-type `application/json` and status 200 for every
request; the root handler writes HTML with status 200 for the path `"/"`,
and the plain-text 404 not-found response for every other path routed to
it. -/
theorem handlers_output (c : Int) (r : Request) (e : Env) :
    (mux r.url.path ≠ .root → isJSON200 (serve c r e).2) ∧
    (r.url.path = "/" →
      (serve c r e).2.contentType = "text/html; charset=utf-8" ∧
      (serve c r e).2.status = 200 ∧
      ∃ s, (serve c r e).2.body = Body.html s) ∧
    (mux r.url.path = .root → r.url.path ≠ "/" →
      (serve c r e).2 = notFoundOutput) := by
  refine ⟨?_, ?_, ?_⟩
  · intro hroot
    unfold serve
    cases hm : mux r.url.path
    case health => exact ⟨rfl, rfl, _, rfl⟩
    case version => exact ⟨rfl, rfl, _, rfl⟩
    case hello => exact ⟨rfl, rfl, _, rfl⟩
    case status => exact ⟨rfl, rfl, _, rfl⟩
    case feature => exact ⟨rfl, rfl, _, rfl⟩
    case metrics => exact ⟨rfl, rfl, _, rfl⟩
    case echo => exact ⟨rfl, rfl, _, rfl⟩
    case info => exact ⟨rfl, rfl, _, rfl⟩
    case time => exact ⟨rfl, rfl, _, rfl⟩
    case random => exact ⟨rfl, rfl, _, rfl⟩
    case root => exact absurd hm hroot
  · intro hp
    have hm : mux r.url.path = .root := by rw [hp]; rfl
    unfold serve rootHandler
    rw [hm, hp]
    exact ⟨rfl, rfl, _, rfl⟩
  · intro hm hp
    unfold serve rootHandler
    rw [hm]
    simp [hp]

/-- Witness for C6 (amended): a JSON endpoint, the landing page, and an
unregistered path. -/
theorem handlers_output_witness :
    isJSON200 (serve 0 (req "GET" "/health" []) env0).2 ∧
    ((serve 0 (req "GET" "/" []) env0).2.contentType = "text/html; charset=utf-8" ∧
     (serve 0 (req "GET" "/" []) env0).2.status = 200 ∧
     ∃ s, (serve 0 (req "GET" "/" []) env0).2.body = Body.html s) ∧
    (serve 0 (req "GET" "/missing" []) env0).2 = notFoundOutput := by
  refine ⟨(handlers_output 0 (req "GET" "/health" []) env0).1 (by decide),
          (handlers_output 0 (req "GET" "/" []) env0).2.1 rfl,
          (handlers_output 0 (req "GET" "/missing" []) env0).2.2 (by decide) (by decide)⟩

/-- Counterexample to C6 as stated: the root handler receives every path no
other pattern matches, and for such a path it writes a plain-text 404, not
HTML and not status 200. -/
theorem root_not_always_html_cex :
    mux (req "GET" "/nope" []).url.path = Route.root ∧
    (serve 0 (req "GET" "/nope" []) env0).2.status ≠ 200 ∧
    (serve 0 (req "GET" "/nope" []) env0).2.contentType ≠ "text/html; charset=utf-8" ∧
    ¬ ∃ s, (serve 0 (req "GET" "/nope" []) env0).2.body = Body.html s := by
  refine ⟨rfl, by decide, by decide, ?_⟩
  rintro ⟨s, hs⟩
  have hb : (serve 0 (req "GET" "/nope" []) env0).2.body =
      Body.plain "404 page not found\n" := rfl
  rw [hb] at hs
  exact Body.noConfusion hs

/-! ### Traced-revision startup -/

/-- The failure branch's log line is a warning, whatever the wrapped error
text is. -/
theorem warning_line_isWarning (msg : String) :
    Traced.isWarningLog ("Warning: Failed to initialize tracer: " ++ msg) = true := by
  unfold Traced.isWarningLog
  rw [String.data_append, List.take_append_of_le_length (by decide)]
  decide

/-- The startup banner is not a warning. -/
theorem banner_not_warning (port : String) :
    Traced.isWarningLog
      ("Demo App v" ++ Traced.tracedVersion ++ " starting on port " ++ port) = false := by
  unfold Traced.isWarningLog
  rw [String.data_append, List.take_append_of_le_length (by decide)]
  decide

/-- The endpoint log line is not a warning. -/
theorem endpoint_log_not_warning (ep : String) :
    Traced.isWarningLog ("OpenTelemetry endpoint: " ++ ep) = false := by
  unfold Traced.isWarningLog
  rw [String.data_append, List.take_append_of_le_length (by decide)]
  decide

/-- Claim C8: in the traced revision, if tracing-backend initialization
fails at startup the service still reaches `ListenAndServe` with the tracer
not installed and exactly one warning logged; if it succeeds, the tracer is
installed (and no warning is logged). -/
theorem tracing_failure_tolerated (lib : Traced.TracingLibOutcomes)
    (envPORT envOTLP : String) :
    (Traced.tracedMain lib envPORT envOTLP).serving = true ∧
    (∀ msg, Traced.initTracer lib = Except.error msg →
      (Traced.tracedMain lib envPORT envOTLP).tracerInstalled = false ∧
      Traced.warningCount (Traced.tracedMain lib envPORT envOTLP) = 1) ∧
    (∀ tp, Traced.initTracer lib = Except.ok tp →
      (Traced.tracedMain lib envPORT envOTLP).tracerInstalled = true ∧
      Traced.warningCount (Traced.tracedMain lib envPORT envOTLP) = 0) := by
  refine ⟨?_, ?_, ?_⟩
  · unfold Traced.tracedMain
    cases Traced.initTracer lib <;> rfl
  · intro msg h
    unfold Traced.tracedMain Traced.warningCount
    rw [h]
    refine ⟨rfl, ?_⟩
    simp [List.filter, warning_line_isWarning, banner_not_warning,
      endpoint_log_not_warning]
  · intro tp h
    unfold Traced.tracedMain Traced.warningCount
    rw [h]
    refine ⟨rfl, ?_⟩
    simp [List.filter, banner_not_warning, endpoint_log_not_warning]
    rfl

/-- Witness for C8: a concrete failing exporter and a concrete successful
initialization. -/
theorem tracing_failure_tolerated_witness :
    ((Traced.tracedMain ⟨some "dial error", none⟩ "" "").serving = true ∧
     (Traced.tracedMain ⟨some "dial error", none⟩ "" "").tracerInstalled = false ∧
     Traced.warningCount (Traced.tracedMain ⟨some "dial error", none⟩ "" "") = 1) ∧
    ((Traced.tracedMain ⟨none, none⟩ "9000" "jaeger:4318").tracerInstalled = true) := by
  have h1 := tracing_failure_tolerated ⟨some "dial error", none⟩ "" ""
  have h2 := tracing_failure_tolerated ⟨none, none⟩ "9000" "jaeger:4318"
  refine ⟨⟨h1.1, ?_, ?_⟩, ?_⟩
  · exact (h1.2.1 "failed to create OTLP exporter: dial error" rfl).1
  · exact (h1.2.1 "failed to create OTLP exporter: dial error" rfl).2
  · exact (h2.2.2 Traced.TracerProvider.mk rfl).1

/-! ### Hexadecimal formatting lemmas -/

/-- A string whose character list is empty is the empty string. -/
theorem eq_empty_of_data_eq_nil (s : String) (h : s.data = []) : s = "" := by
  cases s with
  | mk data => rw [show data = [] from h]

/-- `%x` always produces at least one digit. -/
theorem hexDigits_ne_nil (n : Nat) : hexDigits n ≠ [] := by
  unfold hexDigits
  split <;> simp

/-- Digit characters below 16 are lowercase hex characters. -/
theorem digitChar_hexChar (n : Nat) (h : n < 16) : isHexChar (Nat.digitChar n) = true := by
  interval_cases n <;> rfl

/-- Every character `%x` produces is a lowercase hex character. -/
theorem hexDigits_all_hex (n : Nat) : (hexDigits n).all isHexChar = true := by
  induction n using Nat.strong_induction_on with
  | _ n ih =>
    unfold hexDigits
    split
    · next h => simp [digitChar_hexChar n h]
    · next h =>
      rw [List.all_append]
      have h1 := ih (n / 16) (Nat.div_lt_self (by omega) (by omega))
      have h2 := digitChar_hexChar (n % 16) (Nat.mod_lt _ (by omega))
      simp [h1, h2]

/-- A zero-padded `%x` rendering is a non-empty run of hex characters. -/
theorem goHex_hexGroup (w n : Nat) : hexGroup (goHex w n) := by
  have hdata : (goHex w n).data =
      List.replicate (w - (hexDigits n).length) '0' ++ hexDigits n := rfl
  constructor
  · intro hcontra
    have hnil : (goHex w n).data = [] := by rw [hcontra]
    rw [hdata] at hnil
    exact hexDigits_ne_nil n (List.append_eq_nil.mp hnil).2
  · have hrep : (List.replicate (w - (hexDigits n).length) '0').all isHexChar = true := by
      rw [List.all_eq_true]
      intro c hc
      rw [List.eq_of_mem_replicate hc]
      rfl
    rw [hdata, List.all_append, hrep, hexDigits_all_hex]
    rfl

/-- Claim C4: every response of `/api/random` has exactly 3 dice, each in
`[1,6]`, and a non-empty UUID-shaped string: five hexadecimal groups
separated by hyphens. -/
theorem random_shape (c : Int) (r : Request) (e : Env)
    (hpath : r.url.path = "/api/random") :
    ∃ resp : RandomResponse,
      (serve c r e).2 = writeJSON 200 (Payload.randomP resp) ∧
      resp.dice.length = 3 ∧
      (∀ d ∈ resp.dice, 1 ≤ d ∧ d ≤ 6) ∧
      (∃ g1 g2 g3 g4 g5, resp.uuid =
          g1 ++ "-" ++ g2 ++ "-" ++ g3 ++ "-" ++ g4 ++ "-" ++ g5 ∧
        hexGroup g1 ∧ hexGroup g2 ∧ hexGroup g3 ∧ hexGroup g4 ∧ hexGroup g5) ∧
      resp.uuid ≠ "" := by
  have huuid : (randomResponse e).uuid =
      goHex 8 (e.gen.stream (e.gen.pos + 4) % 2 ^ 63) ++ "-" ++
      goHex 4 ((e.gen.stream (e.gen.pos + 5) % 2 ^ 31) &&& 0xffff) ++ "-" ++
      goHex 4 ((e.gen.stream (e.gen.pos + 6) % 2 ^ 31) &&& 0xffff) ++ "-" ++
      goHex 4 ((e.gen.stream (e.gen.pos + 7) % 2 ^ 31) &&& 0xffff) ++ "-" ++
      goHex 12 (e.gen.stream (e.gen.pos + 8) % 2 ^ 63) := rfl
  refine ⟨randomResponse e, ?_, rfl, ?_, ?_, ?_⟩
  · unfold serve
    rw [hpath]
    rfl
  · intro d hd
    have hdice : (randomResponse e).dice =
        [e.gen.stream e.gen.pos % 6 + 1,
         e.gen.stream (e.gen.pos + 1) % 6 + 1,
         e.gen.stream (e.gen.pos + 2) % 6 + 1] := rfl
    rw [hdice] at hd
    simp only [List.mem_cons, List.not_mem_nil, or_false] at hd
    rcases hd with h | h | h <;> subst h <;> constructor <;> omega
  · exact ⟨_, _, _, _, _, huuid, goHex_hexGroup _ _, goHex_hexGroup _ _,
      goHex_hexGroup _ _, goHex_hexGroup _ _, goHex_hexGroup _ _⟩
  · intro h
    rw [huuid] at h
    have hdt := congrArg String.data h
    simp [String.data_append] at hdt

/-- Witness for C4: the concrete request `/api/random` in the fixture
environment. -/
theorem random_shape_witness :
    ∃ resp : RandomResponse,
      (serve 0 (req "GET" "/api/random" []) env0).2 = writeJSON 200 (Payload.randomP resp) ∧
      resp.dice.length = 3 ∧
      (∀ d ∈ resp.dice, 1 ≤ d ∧ d ≤ 6) ∧
      (∃ g1 g2 g3 g4 g5, resp.uuid =
          g1 ++ "-" ++ g2 ++ "-" ++ g3 ++ "-" ++ g4 ++ "-" ++ g5 ∧
        hexGroup g1 ∧ hexGroup g2 ∧ hexGroup g3 ∧ hexGroup g4 ∧ hexGroup g5) ∧
      resp.uuid ≠ "" :=
  random_shape 0 (req "GET" "/api/random" []) env0 rfl

/-! ### Decimal formatting lemmas -/

/-- `%d` on a single digit. -/
theorem decDigits_lt_ten (n : Nat) (h : n < 10) : decDigits n = [Nat.digitChar n] := by
  unfold decDigits
  simp [h]

/-- One unfolding step of `%d` for numbers of two or more digits. -/
theorem decDigits_step (n : Nat) (h : 10 ≤ n) :
    decDigits n = decDigits (n / 10) ++ [Nat.digitChar (n % 10)] := by
  conv_lhs => unfold decDigits
  rw [if_neg (by omega)]

/-- `%d` on a two-digit number. -/
theorem decDigits_two (n : Nat) (h1 : 10 ≤ n) (h2 : n < 100) :
    decDigits n = [Nat.digitChar (n / 10), Nat.digitChar (n % 10)] := by
  rw [decDigits_step n h1, decDigits_lt_ten (n / 10) (by omega)]
  rfl

/-- `%d` on a three-digit number. -/
theorem decDigits_three (n : Nat) (h1 : 100 ≤ n) (h2 : n < 1000) :
    decDigits n = [Nat.digitChar (n / 100), Nat.digitChar (n / 10 % 10),
      Nat.digitChar (n % 10)] := by
  rw [decDigits_step n (by omega), decDigits_two (n / 10) (by omega) (by omega),
      show n / 10 / 10 = n / 100 from by omega]
  rfl

/-- `%d` on a four-digit number. -/
theorem decDigits_four (n : Nat) (h1 : 1000 ≤ n) (h2 : n < 10000) :
    decDigits n = [Nat.digitChar (n / 1000), Nat.digitChar (n / 100 % 10),
      Nat.digitChar (n / 10 % 10), Nat.digitChar (n % 10)] := by
  rw [decDigits_step n (by omega), decDigits_three (n / 10) (by omega) (by omega),
      show n / 10 / 100 = n / 1000 from by omega,
      show n / 10 / 10 % 10 = n / 100 % 10 from by omega]
  rfl

/-- `%02d` of a number up to 99 is exactly its two zero-padded digits. -/
theorem data_goDec2 (n : Nat) (h : n ≤ 99) :
    (goDec 2 n).data = [Nat.digitChar (n / 10), Nat.digitChar (n % 10)] := by
  have hgo : (goDec 2 n).data =
      List.replicate (2 - (decDigits n).length) '0' ++ decDigits n := rfl
  by_cases h1 : n < 10
  · rw [hgo, decDigits_lt_ten n h1,
        show n / 10 = 0 from by omega, show n % 10 = n from by omega]
    rfl
  · rw [hgo, decDigits_two n (by omega) (by omega)]
    rfl

/-- `%04d` of a number up to 9999 is exactly its four zero-padded digits. -/
theorem data_goDec4 (n : Nat) (h : n ≤ 9999) :
    (goDec 4 n).data = [Nat.digitChar (n / 1000), Nat.digitChar (n / 100 % 10),
      Nat.digitChar (n / 10 % 10), Nat.digitChar (n % 10)] := by
  have hgo : (goDec 4 n).data =
      List.replicate (4 - (decDigits n).length) '0' ++ decDigits n := rfl
  by_cases h1 : n < 10
  · rw [hgo, decDigits_lt_ten n h1, show n / 1000 = 0 from by omega,
        show n / 100 % 10 = 0 from by omega, show n / 10 % 10 = 0 from by omega,
        show n % 10 = n from by omega]
    rfl
  by_cases h2 : n < 100
  · rw [hgo, decDigits_two n (by omega) (by omega), show n / 1000 = 0 from by omega,
        show n / 100 % 10 = 0 from by omega, show n / 10 % 10 = n / 10 from by omega]
    rfl
  by_cases h3 : n < 1000
  · rw [hgo, decDigits_three n (by omega) (by omega), show n / 1000 = 0 from by omega,
        show n / 100 % 10 = n / 100 from by omega]
    rfl
  · rw [hgo, decDigits_four n (by omega) (by omega)]
    rfl

/-- Digit characters below 10 satisfy `Char.isDigit`. -/
theorem digitChar_isDigit (n : Nat) (h : n < 10) : (Nat.digitChar n).isDigit = true := by
  interval_cases n <;> rfl

/-- `digitVal` inverts `Nat.digitChar` on decimal digits. -/
theorem digitVal_digitChar (n : Nat) (h : n < 10) : digitVal (Nat.digitChar n) = n := by
  interval_cases n <;> rfl

/-- The RFC3339 rendering of in-range UTC calendar components is valid. -/
theorem rfc3339_valid (t : DateTime) (hy : t.year ≤ 9999)
    (hmo1 : 1 ≤ t.month) (hmo2 : t.month ≤ 12) (hd1 : 1 ≤ t.day) (hd2 : t.day ≤ 31)
    (hh : t.hour ≤ 23) (hmi : t.minute ≤ 59) (hs : t.second ≤ 59) :
    isValidRFC3339 (rfc3339UTC t) = true := by
  have hdata : (rfc3339UTC t).data =
      [Nat.digitChar (t.year / 1000), Nat.digitChar (t.year / 100 % 10),
       Nat.digitChar (t.year / 10 % 10), Nat.digitChar (t.year % 10), '-',
       Nat.digitChar (t.month / 10), Nat.digitChar (t.month % 10), '-',
       Nat.digitChar (t.day / 10), Nat.digitChar (t.day % 10), 'T',
       Nat.digitChar (t.hour / 10), Nat.digitChar (t.hour % 10), ':',
       Nat.digitChar (t.minute / 10), Nat.digitChar (t.minute % 10), ':',
       Nat.digitChar (t.second / 10), Nat.digitChar (t.second % 10), 'Z'] := by
    simp only [rfc3339UTC, String.data_append]
    rw [data_goDec4 t.year hy, data_goDec2 t.month (by omega),
        data_goDec2 t.day (by omega), data_goDec2 t.hour (by omega),
        data_goDec2 t.minute (by omega), data_goDec2 t.second (by omega)]
    rfl
  have dy1 := digitChar_isDigit (t.year / 1000) (by omega)
  have dy2 := digitChar_isDigit (t.year / 100 % 10) (by omega)
  have dy3 := digitChar_isDigit (t.year / 10 % 10) (by omega)
  have dy4 := digitChar_isDigit (t.year % 10) (by omega)
  have dmo1 := digitChar_isDigit (t.month / 10) (by omega)
  have dmo2 := digitChar_isDigit (t.month % 10) (by omega)
  have dd1 := digitChar_isDigit (t.day / 10) (by omega)
  have dd2 := digitChar_isDigit (t.day % 10) (by omega)
  have dh1 := digitChar_isDigit (t.hour / 10) (by omega)
  have dh2 := digitChar_isDigit (t.hour % 10) (by omega)
  have dmi1 := digitChar_isDigit (t.minute / 10) (by omega)
  have dmi2 := digitChar_isDigit (t.minute % 10) (by omega)
  have ds1 := digitChar_isDigit (t.second / 10) (by omega)
  have ds2 := digitChar_isDigit (t.second % 10) (by omega)
  have vmo1 := digitVal_digitChar (t.month / 10) (by omega)
  have vmo2 := digitVal_digitChar (t.month % 10) (by omega)
  have vd1 := digitVal_digitChar (t.day / 10) (by omega)
  have vd2 := digitVal_digitChar (t.day % 10) (by omega)
  have vh1 := digitVal_digitChar (t.hour / 10) (by omega)
  have vh2 := digitVal_digitChar (t.hour % 10) (by omega)
  have vmi1 := digitVal_digitChar (t.minute / 10) (by omega)
  have vmi2 := digitVal_digitChar (t.minute % 10) (by omega)
  have vs1 := digitVal_digitChar (t.second / 10) (by omega)
  have vs2 := digitVal_digitChar (t.second % 10) (by omega)
  unfold isValidRFC3339
  rw [hdata]
  simp only [List.all_cons, List.all_nil, Bool.and_eq_true, beq_iff_eq,
    decide_eq_true_eq, dy1, dy2, dy3, dy4, dmo1, dmo2, dd1, dd2, dh1, dh2,
    dmi1, dmi2, ds1, ds2, vmo1, vmo2, vd1, vd2, vh1, vh2, vmi1, vmi2, vs1, vs2]
  simp only [and_true, true_and, and_self]
  omega

/-- Claim C5: every response of `/health` has status `"healthy"` and a
timestamp that is a valid RFC3339 time (hypotheses: the clock reading has
in-range calendar components, as `time.Now().UTC()` guarantees). -/
theorem health_response_valid (c : Int) (r : Request) (e : Env)
    (hpath : r.url.path = "/health") (hy : e.now.year ≤ 9999)
    (hmo1 : 1 ≤ e.now.month) (hmo2 : e.now.month ≤ 12)
    (hd1 : 1 ≤ e.now.day) (hd2 : e.now.day ≤ 31) (hh : e.now.hour ≤ 23)
    (hmi : e.now.minute ≤ 59) (hs : e.now.second ≤ 59) :
    ∃ resp : Response,
      (serve c r e).2 = writeJSON 200 (Payload.healthP resp) ∧
      resp.status = "healthy" ∧
      isValidRFC3339 resp.timestamp = true := by
  refine ⟨healthResponse e, ?_, rfl, ?_⟩
  · unfold serve
    rw [hpath]
    rfl
  · exact rfc3339_valid e.now hy hmo1 hmo2 hd1 hd2 hh hmi hs

/-- Witness for C5: the concrete request `/health` at the fixture clock
reading 2026-01-02T03:04:05Z. -/
theorem health_response_valid_witness :
    ∃ resp : Response,
      (serve 0 (req "GET" "/health" []) env0).2 = writeJSON 200 (Payload.healthP resp) ∧
      resp.status = "healthy" ∧
      isValidRFC3339 resp.timestamp = true :=
  health_response_valid 0 (req "GET" "/health" []) env0 rfl (by decide) (by decide)
    (by decide) (by decide) (by decide) (by decide) (by decide) (by decide)

end DemoApp

